import Mathlib

/-!
# sel4_virtio: shared-memory window character device

A shallow embedding of `src/sel4_virtio.c` (a Linux platform driver that exposes a
physical memory window as a character device) together with the properties of its
specification that were checked against it.

Conventions of the embedding (LP64 kernel):

* `size_t`, `unsigned long`, `dma_addr_t`, pointers: 64-bit unsigned, values in `Nat`,
  arithmetic reduced `% 2 ^ 64` where the C expression can wrap;
* `loff_t`, `ssize_t`: 64-bit signed, values in `Int`;
* `u32`, `unsigned int`, `dev_t`: 32-bit unsigned, values in `Nat`;
* kernel helpers that are not part of the driver (`copy_to_user`, `get_device`, ...)
  are either modelled after their documented contract or taken as inputs.
-/

namespace Sel4Virtio

/-! ## C integer conversions -/

/-- Conversion of a mathematical integer to a 64-bit unsigned C type. -/
def to_u64 (x : Int) : Int := x % 2 ^ 64

/-- Conversion of a mathematical integer to a 64-bit signed C type (two's complement). -/
def to_s64 (x : Int) : Int := (x + 2 ^ 63) % 2 ^ 64 - 2 ^ 63

/-- Conversion of a natural number to a 32-bit unsigned C type. -/
def to_u32 (x : Nat) : Nat := x % 2 ^ 32

def ENOMEM : Int := 12
def EFAULT : Int := 14
def EINVAL : Int := 22

/-! ## Memory -/

/-- Kernel virtual memory: one byte per address. Addresses are integers because the
driver forms them as `be->vaddr + *f_pos` with a signed `loff_t` offset. -/
abbrev KMem := Int → Nat

/-- User memory of the calling process: `none` marks an address whose access faults. -/
abbrev UMem := Nat → Option Nat

/-- Number of consecutive accessible user bytes starting at `addr`, at most `n`. -/
def uaccess_span (umem : UMem) (addr : Nat) : Nat → Nat
  | 0 => 0
  | n + 1 => if (umem addr).isSome then uaccess_span umem (addr + 1) n + 1 else 0

/-- Kernel contract of `copy_to_user(to, from, n)`: copies bytes from kernel address
`src` to user address `dst` until `n` bytes are copied or a user address faults;
returns the user memory afterwards and the number of bytes that could NOT be copied. -/
def copy_to_user (kmem : KMem) (umem : UMem) (dst : Nat) (src : Int) (n : Nat) : UMem × Nat :=
  let done := uaccess_span umem dst n
  (fun a => if dst ≤ a ∧ a < dst + done then some (kmem (src + ((a - dst : Nat) : Int))) else umem a,
   n - done)

/-- Kernel contract of `copy_from_user(to, from, n)`: copies bytes from user address
`src` to kernel address `dst` until `n` bytes are copied or a user address faults, pads
the rest of the `n` destination bytes with zeroes; returns the kernel memory afterwards
and the number of bytes that could NOT be copied. -/
def copy_from_user (kmem : KMem) (umem : UMem) (dst : Int) (src : Nat) (n : Nat) : KMem × Nat :=
  let done := uaccess_span umem src n
  (fun a => if dst ≤ a ∧ a < dst + (n : Int) then
              (if a < dst + (done : Int) then (umem (src + (a - dst).toNat)).getD 0 else 0)
            else kmem a,
   n - done)

/-! ## Data model -/

/-- The driver's per-window object `struct sel4_virtio` (fields used by the file
operations; `dev`/`cdev` are represented by the lifecycle state further down). -/
structure sel4_virtio where
  /-- Physical base address of the window (`dma_addr_t`). -/
  paddr : Nat
  /-- Kernel virtual address of the mapping (`void *`). -/
  vaddr : Nat
  /-- Window size in bytes (`u32`). -/
  size : Nat
  client_id : Nat
  deriving DecidableEq, Repr

/-- The part of `struct file` the driver uses. -/
structure file where
  private_data : sel4_virtio
  deriving DecidableEq, Repr

/-- Outcome of one `read`/`write` call: the `ssize_t` return value, the value left in
`*f_pos`, and the kernel and user memories afterwards. -/
structure IoResult where
  ret : Int
  f_pos : Int
  kmem : KMem
  umem : UMem

/-! ## File operations -/

/-- Source function `sel4_virtio_read(filp, buf, count, f_pos)`. -/
def sel4_virtio_read (filp : file) (kmem : KMem) (umem : UMem)
    (buf : Nat) (count : Nat) (f_pos : Int) : IoResult :=
  let be := filp.private_data
  if f_pos ≥ (be.size : Int) then
    { ret := 0, f_pos := f_pos, kmem := kmem, umem := umem }
  else
    let count : Nat :=
      if to_u64 (f_pos + (count : Int)) ≥ (be.size : Int) then
        (to_u64 ((be.size : Int) - f_pos)).toNat
      else count
    let r := copy_to_user kmem umem buf ((be.vaddr : Int) + f_pos) count
    if r.2 ≠ 0 then
      { ret := -EFAULT, f_pos := f_pos, kmem := kmem, umem := r.1 }
    else
      { ret := to_s64 (count : Int), f_pos := to_s64 (f_pos + (count : Int)),
        kmem := kmem, umem := r.1 }

/-- Source function `sel4_virtio_write(filp, buf, count, f_pos)`. -/
def sel4_virtio_write (filp : file) (kmem : KMem) (umem : UMem)
    (buf : Nat) (count : Nat) (f_pos : Int) : IoResult :=
  let be := filp.private_data
  if f_pos ≥ (be.size : Int) then
    { ret := 0, f_pos := f_pos, kmem := kmem, umem := umem }
  else
    let count : Nat :=
      if to_u64 (f_pos + (count : Int)) ≥ (be.size : Int) then
        (to_u64 ((be.size : Int) - f_pos)).toNat
      else count
    let r := copy_from_user kmem umem ((be.vaddr : Int) + f_pos) buf count
    if r.2 ≠ 0 then
      { ret := -EFAULT, f_pos := f_pos, kmem := r.1, umem := umem }
    else
      { ret := to_s64 (count : Int), f_pos := to_s64 (f_pos + (count : Int)),
        kmem := r.1, umem := umem }

/-- Page protection value (`pgprot_t`): access permission bits and memory type. -/
structure pgprot_t where
  access : Nat
  writecombine : Bool
  deriving DecidableEq, Repr

/-- Modelled from the spec: `pgprot_writecombine` is an architecture macro that is not
under src/; it keeps the access permissions and selects write-combining caching
("protection = writable, caching = write-combining"). -/
def pgprot_writecombine (prot : pgprot_t) : pgprot_t :=
  { prot with writecombine := true }

/-- The fields of `struct vm_area_struct` that matter to `mmap` (`unsigned long`s). -/
structure vm_area_struct where
  vm_start : Nat
  vm_end : Nat
  vm_pgoff : Nat
  vm_page_prot : pgprot_t
  deriving DecidableEq, Repr

/-- Arguments of one call of `remap_pfn_range(vma, addr, pfn, size, prot)`. -/
structure RemapRequest where
  addr : Nat
  pfn : Nat
  size : Nat
  prot : pgprot_t
  deriving DecidableEq, Repr

/-- Outcome of `sel4_virtio_mmap`: return value, the vma afterwards and the remap
request handed to the kernel, if any. -/
structure MmapResult where
  ret : Int
  vma : vm_area_struct
  request : Option RemapRequest
  deriving DecidableEq, Repr

/-- The C expression `vma->vm_end - vma->vm_start` (`unsigned long` arithmetic). -/
def vma_length (vma : vm_area_struct) : Nat :=
  (to_u64 ((vma.vm_end : Int) - (vma.vm_start : Int))).toNat

/-- Source function `sel4_virtio_mmap(filep, vma)`. `PAGE_SHIFT` is the architecture constant and
`remap_pfn_range` the kernel's answer to the remap request; both are inputs. -/
def sel4_virtio_mmap (PAGE_SHIFT : Nat) (remap_pfn_range : RemapRequest → Int)
    (filep : file) (vma : vm_area_struct) : MmapResult :=
  let be := filep.private_data
  if vma_length vma > be.size then
    { ret := -EINVAL, vma := vma, request := none }
  else
    let vma := { vma with vm_page_prot := pgprot_writecombine vma.vm_page_prot }
    let req : RemapRequest :=
      { addr := vma.vm_start, pfn := be.paddr >>> PAGE_SHIFT,
        size := vma_length vma, prot := vma.vm_page_prot }
    { ret := remap_pfn_range req, vma := vma, request := some req }

/-- Modelled from the spec: `default_llseek` (installed as `.llseek` in
`sel4_virtio_fops`) is a kernel helper that is not under src/; "seek(session,
new_position) sets cursor directly; no enforced upper bound other than what
read/write clamp lazily". The cursor is unsigned in the spec (`cursor: u64`), and the
kernel helper refuses a negative target with `-EINVAL`, leaving the cursor as it was.
Returns the return value and the cursor afterwards. -/
def default_llseek (_filp : file) (new_position : Int) (f_pos : Int) : Int × Int :=
  if new_position ≥ 0 then (new_position, new_position) else (-EINVAL, f_pos)

/-! ## Device numbers -/

/-- Modelled from the spec: `MINORBITS` comes from the kernel header `linux/kdev_t.h`,
not under src/; the minor-identity space is "0–(2^20−1)". -/
def MINORBITS : Nat := 20

/-- Kernel macro `MINORMASK`, `((1U << MINORBITS) - 1)`. -/
def MINORMASK : Nat := 2 ^ MINORBITS - 1

/-- Kernel macro `MAJOR(dev)`, `((unsigned int) ((dev) >> MINORBITS))`. -/
def MAJOR (dev : Nat) : Nat := dev >>> MINORBITS

/-- Kernel macro `MINOR(dev)`, `((unsigned int) ((dev) & MINORMASK))`. -/
def MINOR (dev : Nat) : Nat := dev &&& MINORMASK

/-- Kernel macro `MKDEV(ma, mi)`, `(((ma) << MINORBITS) | (mi))` on 32-bit unsigned
operands. -/
def MKDEV (ma mi : Nat) : Nat := to_u32 (ma <<< MINORBITS) ||| mi

/-- Source constant `#define SEL4_VIRTIO_DEV_MAX (MINORMASK + 1)`. -/
def SEL4_VIRTIO_DEV_MAX : Nat := MINORMASK + 1

/-! ## Device lifecycle -/

/-- Lifecycle state of one window object: the `struct sel4_virtio` itself, the
reference count of its embedded `struct device`, and what has happened to its mapping,
its character device and its allocation. -/
structure Device where
  be : sel4_virtio
  /-- Reference count of `be->dev`. -/
  kref : Nat
  /-- Whether `be->vaddr` is a live mapping of the window. -/
  mapped : Bool
  /-- The character device / device node is visible to consumers. -/
  registered : Bool
  /-- The device number `be->dev.devt`. -/
  devt : Nat
  /-- Whether `kfree(be)` has run. -/
  freed : Bool
  deriving DecidableEq, Repr

/-- The `struct resource` as filled by `of_address_to_resource`. -/
structure resource where
  start : Nat
  end_ : Nat
  deriving DecidableEq, Repr

/-- Kernel inline `resource_size(res)`, `res->end - res->start + 1` in the 64-bit
`resource_size_t`. -/
def resource_size (r : resource) : Nat :=
  (to_u64 ((r.end_ : Int) - (r.start : Int) + 1)).toNat

/-- A pointer-or-error value as returned by `devm_memremap` (`IS_ERR` / `PTR_ERR`). -/
inductive ptr_or_err where
  | ptr (vaddr : Nat)
  | err (errno : Int)
  deriving DecidableEq, Repr

/-- Answers of the kernel collaborators that `sel4_virtio_probe` consults. -/
structure ProbeEnv where
  /-- Whether `kzalloc` returned a non-NULL object. -/
  kzalloc_ok : Bool
  /-- Return code of `of_property_read_u32(.., "client-id", ..)` and the value read. -/
  of_property_read_u32 : Int × Nat
  /-- Whether `of_parse_phandle(.., "memory-region", 0)` returned a non-NULL node. -/
  of_parse_phandle : Bool
  /-- Return code of `of_address_to_resource` and the resource it filled in. -/
  of_address_to_resource : Int × resource
  /-- Result of `devm_memremap(dev, paddr, size, MEMREMAP_WB)`. -/
  devm_memremap : Nat → Nat → ptr_or_err
  /-- Return code of `cdev_device_add` for the device number it is given. -/
  cdev_device_add : Nat → Int
  /-- The global `sel4_virtio_major` set by `alloc_chrdev_region` (a `dev_t`). -/
  sel4_virtio_major : Nat

/-- Outcome of `sel4_virtio_probe`: return value, the window object (when allocated)
and the requests made to the mapper and to the character-device layer. -/
structure ProbeResult where
  ret : Int
  dev : Option Device
  /-- Arguments `(paddr, size)` of the `devm_memremap` call, if it was made. -/
  memremap_request : Option (Nat × Nat)
  /-- Device number passed to `cdev_device_add`, if it was called. -/
  cdev_request : Option Nat
  deriving DecidableEq, Repr

/-- Kernel inline `ERR_PTR(error)`: the error code as a pointer value. -/
def ERR_PTR (error : Int) : Nat := (to_u64 error).toNat

/-- Kernel call `get_device(&be->dev)`. -/
def get_device (d : Device) : Device := { d with kref := d.kref + 1 }

/-- Source function `sel4_virtio_release_device(dev)`: the `release` callback, `kfree(be)`. -/
def sel4_virtio_release_device (d : Device) : Device := { d with freed := true }

/-- Kernel call `put_device(&be->dev)`: drops one reference; the last one runs the release
callback. -/
def put_device (d : Device) : Device :=
  let d := { d with kref := d.kref - 1 }
  if d.kref = 0 then sel4_virtio_release_device d else d

/-- The freshly allocated (`kzalloc`), all-zero window object. -/
def zeroed_device : Device :=
  { be := { paddr := 0, vaddr := 0, size := 0, client_id := 0 },
    kref := 0, mapped := false, registered := false, devt := 0, freed := false }

/-- Source function `sel4_virtio_probe(pdev)`. -/
def sel4_virtio_probe (env : ProbeEnv) : ProbeResult :=
  if !env.kzalloc_ok then
    { ret := -ENOMEM, dev := none, memremap_request := none, cdev_request := none }
  else
    let d := zeroed_device
    let ret := env.of_property_read_u32.1
    let client_id := env.of_property_read_u32.2
    if ret ≠ 0 then
      { ret := ret, dev := some d, memremap_request := none, cdev_request := none }
    else if !env.of_parse_phandle then
      { ret := -EINVAL, dev := some d, memremap_request := none, cdev_request := none }
    else
      let ret := env.of_address_to_resource.1
      let r := env.of_address_to_resource.2
      if ret ≠ 0 then
        { ret := ret, dev := some d, memremap_request := none, cdev_request := none }
      else
        let d := { d with be := { d.be with paddr := r.start,
                                            size := to_u32 (resource_size r),
                                            client_id := client_id } }
        -- device_initialize(&be->dev)
        let d := { d with kref := 1 }
        match env.devm_memremap d.be.paddr d.be.size with
        | .err e =>
          -- be->vaddr holds the error pointer; IS_ERR(be->vaddr), return PTR_ERR(be->vaddr)
          let d := { d with be := { d.be with vaddr := ERR_PTR e } }
          { ret := e, dev := some d,
            memremap_request := some (d.be.paddr, d.be.size), cdev_request := none }
        | .ptr vaddr =>
          let d := { d with be := { d.be with vaddr := vaddr }, mapped := true }
          let d := { d with devt := MKDEV (MAJOR env.sel4_virtio_major) client_id }
          let ret := env.cdev_device_add d.devt
          if ret ≠ 0 then
            { ret := ret, dev := some (put_device d),
              memremap_request := some (d.be.paddr, d.be.size),
              cdev_request := some d.devt }
          else
            { ret := 0, dev := some { d with registered := true },
              memremap_request := some (d.be.paddr, d.be.size),
              cdev_request := some d.devt }

/-- Source function `sel4_virtio_open(inode, filp)`: takes a reference on the device and stores the
window object in `filp->private_data`; returns 0. -/
def sel4_virtio_open (d : Device) : Int × Device × file :=
  (0, get_device d, { private_data := d.be })

/-- Source function `sel4_virtio_release(inode, filp)`: drops the session's reference; returns 0. -/
def sel4_virtio_release (d : Device) (_filp : file) : Int × Device :=
  (0, put_device d)

/-- Kernel call `cdev_device_del(&be->cdev, &be->dev)`: the endpoint disappears. -/
def cdev_device_del (d : Device) : Device := { d with registered := false }

/-- Kernel call `devm_memunmap(&pdev->dev, be->vaddr)`: the mapping is torn down. -/
def devm_memunmap (d : Device) : Device := { d with mapped := false }

/-- Source function `sel4_virtio_remove(pdev)`; returns 0. -/
def sel4_virtio_remove (d : Device) : Int × Device :=
  let d := cdev_device_del d
  let d := put_device d
  let d := devm_memunmap d
  (0, d)

/-! ## Sessions -/

/-- The cursor-relevant operations that `sel4_virtio_fops` offers on an open file:
`.read`, `.write` and `.llseek`. -/
inductive FileOp where
  | read (buf count : Nat)
  | write (buf count : Nat)
  | llseek (new_position : Int)
  deriving DecidableEq, Repr

/-- The operation, if it is a seek, asks for a position of at most `bound`. -/
def FileOp.seeks_within (bound : Int) : FileOp → Bool
  | .read _ _ => true
  | .write _ _ => true
  | .llseek new_position => decide (new_position ≤ bound)

/-- One open session: the `struct file`, its cursor, and the memories it acts on. -/
structure Session where
  filp : file
  f_pos : Int
  kmem : KMem
  umem : UMem

/-- Modelled from the spec: the creation of the `struct file` by the VFS is not under
src/; "Created on open, destroyed on close; cursor starts at 0". -/
def session_open (filp : file) (kmem : KMem) (umem : UMem) : Session :=
  { filp := filp, f_pos := 0, kmem := kmem, umem := umem }

/-- One operation on a session, dispatched through `sel4_virtio_fops`; the value the
operation leaves in `*f_pos` becomes the session's cursor. -/
def session_step (s : Session) : FileOp → Session
  | .read buf count =>
    let r := sel4_virtio_read s.filp s.kmem s.umem buf count s.f_pos
    { s with f_pos := r.f_pos, kmem := r.kmem, umem := r.umem }
  | .write buf count =>
    let r := sel4_virtio_write s.filp s.kmem s.umem buf count s.f_pos
    { s with f_pos := r.f_pos, kmem := r.kmem, umem := r.umem }
  | .llseek new_position =>
    { s with f_pos := (default_llseek s.filp new_position s.f_pos).2 }

/-- A sequence of operations on a session. -/
def session_run (s : Session) (ops : List FileOp) : Session :=
  ops.foldl session_step s

/-! ## Lifecycle of a probed window -/

/-- Events in the life of a probed window: a consumer opens a session, a consumer
closes one, the platform device is removed. -/
inductive LifecycleOp where
  | do_open
  | do_release
  | do_remove
  deriving DecidableEq, Repr

/-- The window object together with the number of sessions that were opened by
`sel4_virtio_open` and not yet released. -/
structure Lifecycle where
  dev : Device
  open_sessions : Nat
  deriving DecidableEq, Repr

/-- One lifecycle event. A session can be opened only while the endpoint is
registered, and released only if one is open. -/
def lifecycle_step (s : Lifecycle) : LifecycleOp → Lifecycle
  | .do_open =>
    if s.dev.registered then
      { dev := (sel4_virtio_open s.dev).2.1, open_sessions := s.open_sessions + 1 }
    else s
  | .do_release =>
    if s.open_sessions = 0 then s
    else { dev := (sel4_virtio_release s.dev ⟨s.dev.be⟩).2,
           open_sessions := s.open_sessions - 1 }
  | .do_remove =>
    { dev := (sel4_virtio_remove s.dev).2, open_sessions := s.open_sessions }

/-- A sequence of lifecycle events. -/
def lifecycle_run (s : Lifecycle) (ops : List LifecycleOp) : Lifecycle :=
  ops.foldl lifecycle_step s

/-- The state right after probe: the device it produced, no session open. -/
def lifecycle_after_probe (env : ProbeEnv) : Lifecycle :=
  { dev := ((sel4_virtio_probe env).dev).getD zeroed_device, open_sessions := 0 }

/-! ## The clamp, and the operations in the spec's words -/

/-- The transfer count in the spec's words: "clamps length so offset+length <= size",
that is, the smaller of the requested count and the bytes left in the window. -/
def spec_transfer_count (size : Nat) (cursor : Int) (count : Nat) : Nat :=
  min count ((size : Int) - cursor).toNat

/-- The clamp written with `>` instead of the source's `>=`. -/
def clamp_gt (size : Nat) (cursor : Int) (count : Nat) : Nat :=
  if cursor + (count : Int) > (size : Int) then ((size : Int) - cursor).toNat else count

/-- The clamp as the source writes it (`*f_pos + count >= be->size`), on its own. -/
def clamp_ge (size : Nat) (cursor : Int) (count : Nat) : Nat :=
  if to_u64 (cursor + (count : Int)) ≥ (size : Int) then
    (to_u64 ((size : Int) - cursor)).toNat
  else count

/-- The `read` operation in the spec's words: an empty result at or past the end, otherwise copy
`spec_transfer_count` bytes from the window at the cursor and advance the cursor by
the number of bytes transferred. -/
def spec_read (filp : file) (kmem : KMem) (umem : UMem)
    (buf : Nat) (count : Nat) (cursor : Int) : IoResult :=
  let be := filp.private_data
  if cursor ≥ (be.size : Int) then
    { ret := 0, f_pos := cursor, kmem := kmem, umem := umem }
  else
    let n := spec_transfer_count be.size cursor count
    let r := copy_to_user kmem umem buf ((be.vaddr : Int) + cursor) n
    if r.2 ≠ 0 then { ret := -EFAULT, f_pos := cursor, kmem := kmem, umem := r.1 }
    else { ret := (n : Int), f_pos := cursor + (n : Int), kmem := kmem, umem := r.1 }

/-- The `write` operation in the spec's words: same clamping policy as `spec_read`. -/
def spec_write (filp : file) (kmem : KMem) (umem : UMem)
    (buf : Nat) (count : Nat) (cursor : Int) : IoResult :=
  let be := filp.private_data
  if cursor ≥ (be.size : Int) then
    { ret := 0, f_pos := cursor, kmem := kmem, umem := umem }
  else
    let n := spec_transfer_count be.size cursor count
    let r := copy_from_user kmem umem ((be.vaddr : Int) + cursor) buf n
    if r.2 ≠ 0 then { ret := -EFAULT, f_pos := cursor, kmem := r.1, umem := umem }
    else { ret := (n : Int), f_pos := cursor + (n : Int), kmem := r.1, umem := umem }

/-! ## Example windows -/

/-- The window of the spec's scenario: 4096 bytes, client id 3. -/
def win4096 : sel4_virtio :=
  { paddr := 0x80000000, vaddr := 0x10000, size := 4096, client_id := 3 }

/-- A small window of 8 bytes. -/
def win8 : sel4_virtio :=
  { paddr := 0x80000000, vaddr := 0x10000, size := 8, client_id := 3 }

/-- Kernel memory holding the low byte of each address. -/
def kmem_addr : KMem := fun a => (a % 256).toNat

/-- User memory with `n` accessible bytes of value `v` at address `base`. -/
def ubuf (base n v : Nat) : UMem := fun a => if base ≤ a ∧ a < base + n then some v else none

/-- User memory of the round-trip scenario: sixteen bytes `0xAA` at 1000 (the data to
write) and sixteen accessible bytes at 2000 (the buffer to read into). -/
def umem_rt : UMem := fun a =>
  if 1000 ≤ a ∧ a < 1016 then some 170
  else if 2000 ≤ a ∧ a < 2016 then some 0
  else none

/-- Sixteen bytes `0xAA`. -/
def pattern16 : List Nat := List.replicate 16 170

/-- A vma of `len` bytes with page offset `pgoff`, readable and writable. -/
def vma_of_length (len pgoff : Nat) : vm_area_struct :=
  { vm_start := 0x7f0000000000, vm_end := 0x7f0000000000 + len, vm_pgoff := pgoff,
    vm_page_prot := { access := 3, writecombine := false } }

/-- Collaborator answers for a probe of the scenario's window (4096 bytes at
0x80000000, major 240), with the return codes of the three discovery calls, the
client id and the answer of `cdev_device_add` left open. -/
def probe_env (rc_client_id : Int) (client_id : Nat) (has_region : Bool)
    (rc_resource : Int) (rc_cdev : Int) : ProbeEnv :=
  { kzalloc_ok := true,
    of_property_read_u32 := (rc_client_id, client_id),
    of_parse_phandle := has_region,
    of_address_to_resource := (rc_resource, { start := 0x80000000, end_ := 0x80000fff }),
    devm_memremap := fun _ _ => .ptr 0x10000,
    cdev_device_add := fun _ => rc_cdev,
    sel4_virtio_major := 240 * 2 ^ 20 }

/-! ## Arithmetic helpers -/

theorem to_s64_of_range {x : Int} (h0 : -(2 ^ 63) ≤ x) (h1 : x < 2 ^ 63) : to_s64 x = x := by
  unfold to_s64
  omega

/-- Without wrap-around the source's clamp is the spec's transfer count. -/
theorem clamp_ge_eq_spec {size count : Nat} {cursor : Int}
    (h0 : 0 ≤ cursor) (h1 : cursor < size) (hsz : size < 2 ^ 32)
    (hnw : cursor + (count : Int) < 2 ^ 64) :
    clamp_ge size cursor count = spec_transfer_count size cursor count := by
  unfold clamp_ge spec_transfer_count to_u64
  split <;> omega

/-- All `n` bytes at `addr` are accessible: the span is `n`. -/
theorem uaccess_span_full (umem : UMem) :
    ∀ (n addr : Nat), (∀ i, i < n → (umem (addr + i)).isSome) → uaccess_span umem addr n = n := by
  intro n
  induction n with
  | zero => intro addr _; rfl
  | succ n ih =>
    intro addr h
    have h0 : (umem addr).isSome := by simpa using h 0 (Nat.succ_pos n)
    have hn : uaccess_span umem (addr + 1) n = n := by
      apply ih
      intro i hi
      have := h (i + 1) (Nat.succ_lt_succ hi)
      rwa [Nat.add_assoc, Nat.add_comm 1 i]
    simp [uaccess_span, h0, hn]

/-- The source's `read` is `copy_to_user` of `clamp_ge` bytes. -/
theorem sel4_virtio_read_eq (filp : file) (kmem : KMem) (umem : UMem) (buf count : Nat)
    (f_pos : Int) (h : f_pos < filp.private_data.size) :
    sel4_virtio_read filp kmem umem buf count f_pos =
      let n := clamp_ge filp.private_data.size f_pos count
      let r := copy_to_user kmem umem buf ((filp.private_data.vaddr : Int) + f_pos) n
      if r.2 ≠ 0 then { ret := -EFAULT, f_pos := f_pos, kmem := kmem, umem := r.1 }
      else { ret := to_s64 (n : Int), f_pos := to_s64 (f_pos + (n : Int)),
             kmem := kmem, umem := r.1 } := by
  have h' : ¬ (f_pos ≥ (filp.private_data.size : Int)) := by omega
  simp only [sel4_virtio_read, clamp_ge, h', if_false]

/-- The source's `write` is `copy_from_user` of `clamp_ge` bytes. -/
theorem sel4_virtio_write_eq (filp : file) (kmem : KMem) (umem : UMem) (buf count : Nat)
    (f_pos : Int) (h : f_pos < filp.private_data.size) :
    sel4_virtio_write filp kmem umem buf count f_pos =
      let n := clamp_ge filp.private_data.size f_pos count
      let r := copy_from_user kmem umem ((filp.private_data.vaddr : Int) + f_pos) buf n
      if r.2 ≠ 0 then { ret := -EFAULT, f_pos := f_pos, kmem := r.1, umem := umem }
      else { ret := to_s64 (n : Int), f_pos := to_s64 (f_pos + (n : Int)),
             kmem := r.1, umem := umem } := by
  have h' : ¬ (f_pos ≥ (filp.private_data.size : Int)) := by omega
  simp only [sel4_virtio_write, clamp_ge, h', if_false]

/-- At or past the end of the window `read` returns 0 and changes nothing. -/
theorem sel4_virtio_read_past_end (filp : file) (kmem : KMem) (umem : UMem)
    (buf count : Nat) (f_pos : Int) (h : (filp.private_data.size : Int) ≤ f_pos) :
    sel4_virtio_read filp kmem umem buf count f_pos
      = { ret := 0, f_pos := f_pos, kmem := kmem, umem := umem } := by
  have h' : f_pos ≥ (filp.private_data.size : Int) := h
  simp only [sel4_virtio_read, h', if_true]

/-- At or past the end of the window `write` returns 0 and changes nothing. -/
theorem sel4_virtio_write_past_end (filp : file) (kmem : KMem) (umem : UMem)
    (buf count : Nat) (f_pos : Int) (h : (filp.private_data.size : Int) ≤ f_pos) :
    sel4_virtio_write filp kmem umem buf count f_pos
      = { ret := 0, f_pos := f_pos, kmem := kmem, umem := umem } := by
  have h' : f_pos ≥ (filp.private_data.size : Int) := h
  simp only [sel4_virtio_write, h', if_true]

/-- C2: when the cursor is at or past the end of the window, `sel4_virtio_read` and
`sel4_virtio_write` return 0 (a successful zero-length result, not an error code),
transfer nothing, and leave the cursor, the window and the user buffer unchanged,
whatever length was requested. -/
theorem read_write_past_end_is_empty (filp : file) (kmem : KMem) (umem : UMem)
    (buf count : Nat) (f_pos : Int) (h : (filp.private_data.size : Int) ≤ f_pos) :
    sel4_virtio_read filp kmem umem buf count f_pos
        = { ret := 0, f_pos := f_pos, kmem := kmem, umem := umem } ∧
    sel4_virtio_write filp kmem umem buf count f_pos
        = { ret := 0, f_pos := f_pos, kmem := kmem, umem := umem } := by
  exact ⟨sel4_virtio_read_past_end filp kmem umem buf count f_pos h,
    sel4_virtio_write_past_end filp kmem umem buf count f_pos h⟩

/-- Witness for C2: a 4096-byte window, cursor 5000, request of 16 bytes. -/
theorem read_write_past_end_is_empty_witness :
    ((win4096.size : Int) ≤ 5000) ∧
    (sel4_virtio_read ⟨win4096⟩ kmem_addr (ubuf 1000 16 1) 1000 16 5000
        = { ret := 0, f_pos := 5000, kmem := kmem_addr, umem := ubuf 1000 16 1 } ∧
     sel4_virtio_write ⟨win4096⟩ kmem_addr (ubuf 1000 16 1) 1000 16 5000
        = { ret := 0, f_pos := 5000, kmem := kmem_addr, umem := ubuf 1000 16 1 }) :=
  ⟨by decide, read_write_past_end_is_empty ⟨win4096⟩ kmem_addr (ubuf 1000 16 1) 1000 16 5000
    (by decide)⟩

/-- C9: for a cursor inside the window and a count whose sum with the cursor does not
wrap, the source's `read` and `write` (clamp written with `>=`) behave exactly like the
spec's `read`/`write` that transfer `min(count, size - cursor)` bytes; the `>=` clamp
equals the `>` clamp, which is that minimum; and when `cursor + count = size` the full
count is transferred. -/
theorem ge_clamp_transfers_min (filp : file) (kmem : KMem) (umem : UMem)
    (buf count : Nat) (f_pos : Int)
    (h0 : 0 ≤ f_pos) (h1 : f_pos < filp.private_data.size)
    (hsz : filp.private_data.size < 2 ^ 32)
    (hnw : f_pos + (count : Int) < 2 ^ 64) :
    sel4_virtio_read filp kmem umem buf count f_pos = spec_read filp kmem umem buf count f_pos ∧
    sel4_virtio_write filp kmem umem buf count f_pos
      = spec_write filp kmem umem buf count f_pos ∧
    clamp_ge filp.private_data.size f_pos count = clamp_gt filp.private_data.size f_pos count ∧
    clamp_gt filp.private_data.size f_pos count
      = min count ((filp.private_data.size : Int) - f_pos).toNat ∧
    (f_pos + (count : Int) = filp.private_data.size →
      spec_transfer_count filp.private_data.size f_pos count = count) := by
  have hge : ¬ (f_pos ≥ (filp.private_data.size : Int)) := by omega
  have hn : spec_transfer_count filp.private_data.size f_pos count
      ≤ ((filp.private_data.size : Int) - f_pos).toNat := by
    unfold spec_transfer_count; omega
  have hs1 : to_s64 ((spec_transfer_count filp.private_data.size f_pos count : Nat) : Int)
      = (spec_transfer_count filp.private_data.size f_pos count : Nat) := by
    apply to_s64_of_range <;> omega
  have hs2 : to_s64 (f_pos + ((spec_transfer_count filp.private_data.size f_pos count : Nat) : Int))
      = f_pos + (spec_transfer_count filp.private_data.size f_pos count : Nat) := by
    apply to_s64_of_range <;> omega
  refine ⟨?_, ?_, ?_, ?_, ?_⟩
  · rw [sel4_virtio_read_eq _ _ _ _ _ _ h1, clamp_ge_eq_spec h0 h1 hsz hnw]
    simp only [spec_read, hge, if_false, hs1, hs2]
  · rw [sel4_virtio_write_eq _ _ _ _ _ _ h1, clamp_ge_eq_spec h0 h1 hsz hnw]
    simp only [spec_write, hge, if_false, hs1, hs2]
  · rw [clamp_ge_eq_spec h0 h1 hsz hnw]
    unfold clamp_gt spec_transfer_count
    split <;> omega
  · unfold clamp_gt
    split <;> omega
  · intro h
    unfold spec_transfer_count
    omega

/-- Witness for C9: the scenario's boundary case, cursor 4080 and 16 bytes in a
4096-byte window (`cursor + count = size`). -/
theorem ge_clamp_transfers_min_witness :
    sel4_virtio_read ⟨win4096⟩ kmem_addr (ubuf 1000 16 1) 1000 16 4080
      = spec_read ⟨win4096⟩ kmem_addr (ubuf 1000 16 1) 1000 16 4080 ∧
    sel4_virtio_write ⟨win4096⟩ kmem_addr (ubuf 1000 16 1) 1000 16 4080
      = spec_write ⟨win4096⟩ kmem_addr (ubuf 1000 16 1) 1000 16 4080 ∧
    clamp_ge win4096.size 4080 16 = clamp_gt win4096.size 4080 16 ∧
    clamp_gt win4096.size 4080 16 = min 16 ((win4096.size : Int) - 4080).toNat ∧
    spec_transfer_count win4096.size 4080 16 = 16 :=
  (fun h => ⟨h.1, h.2.1, h.2.2.1, h.2.2.2.1, h.2.2.2.2 (by decide)⟩)
    (ge_clamp_transfers_min ⟨win4096⟩ kmem_addr (ubuf 1000 16 1) 1000 16 4080
      (by decide) (by decide) (by decide) (by decide))

/-- C3 (round trip): for a window of size below 2^32, an offset and a byte string `B`
held in accessible user memory with `offset + len(B) <= size` (the boundary
`offset + len(B) = size` included), `sel4_virtio_write` at cursor `offset` returns
`len(B)` and changes no kernel byte outside `[vaddr+offset, vaddr+offset+len(B))`; a
following `sel4_virtio_read` of `len(B)` bytes at cursor `offset` into an accessible
buffer returns `len(B)` and delivers exactly `B`. -/
theorem write_then_read_round_trip (filp : file) (kmem : KMem) (umem : UMem)
    (buf rbuf offset : Nat) (B : List Nat)
    (hsz : filp.private_data.size < 2 ^ 32)
    (hfit : offset + B.length ≤ filp.private_data.size)
    (hsrc : ∀ i, i < B.length → umem (buf + i) = B[i]?)
    (hdst : ∀ i, i < B.length → (umem (rbuf + i)).isSome) :
    (sel4_virtio_write filp kmem umem buf B.length offset).ret = B.length ∧
    (∀ a : Int, ¬ ((filp.private_data.vaddr : Int) + offset ≤ a ∧
                    a < (filp.private_data.vaddr : Int) + offset + B.length) →
        (sel4_virtio_write filp kmem umem buf B.length offset).kmem a = kmem a) ∧
    (sel4_virtio_read filp (sel4_virtio_write filp kmem umem buf B.length offset).kmem
        (sel4_virtio_write filp kmem umem buf B.length offset).umem
        rbuf B.length offset).ret = B.length ∧
    (∀ i, i < B.length →
      (sel4_virtio_read filp (sel4_virtio_write filp kmem umem buf B.length offset).kmem
        (sel4_virtio_write filp kmem umem buf B.length offset).umem
        rbuf B.length offset).umem (rbuf + i) = B[i]?) := by
  by_cases hlt : ((offset : Nat) : Int) < filp.private_data.size
  · -- the cursor is inside the window: both calls copy exactly `B.length` bytes
    have hcl : clamp_ge filp.private_data.size (offset : Int) B.length = B.length := by
      rw [clamp_ge_eq_spec (by omega) hlt hsz (by omega)]
      unfold spec_transfer_count
      omega
    have hspan_src : uaccess_span umem buf B.length = B.length := by
      apply uaccess_span_full
      intro i hi
      rw [hsrc i hi, List.getElem?_eq_getElem hi]
      rfl
    have hspan_dst : uaccess_span umem rbuf B.length = B.length :=
      uaccess_span_full umem _ _ hdst
    have hs1 : to_s64 ((B.length : Nat) : Int) = B.length := by
      apply to_s64_of_range <;> omega
    have hw : sel4_virtio_write filp kmem umem buf B.length offset =
        { ret := B.length, f_pos := to_s64 ((offset : Int) + (B.length : Int)),
          kmem := (copy_from_user kmem umem ((filp.private_data.vaddr : Int) + offset)
                    buf B.length).1,
          umem := umem } := by
      rw [sel4_virtio_write_eq _ _ _ _ _ _ hlt, hcl]
      simp [copy_from_user, hspan_src, hs1]
    rw [hw]
    have hr : sel4_virtio_read filp
          (copy_from_user kmem umem ((filp.private_data.vaddr : Int) + offset) buf B.length).1
          umem rbuf B.length offset =
        { ret := B.length, f_pos := to_s64 ((offset : Int) + (B.length : Int)),
          kmem := (copy_from_user kmem umem ((filp.private_data.vaddr : Int) + offset)
                    buf B.length).1,
          umem := (copy_to_user
                    (copy_from_user kmem umem ((filp.private_data.vaddr : Int) + offset)
                      buf B.length).1
                    umem rbuf ((filp.private_data.vaddr : Int) + offset) B.length).1 } := by
      rw [sel4_virtio_read_eq _ _ _ _ _ _ hlt, hcl]
      simp [copy_to_user, hspan_dst, hs1]
    rw [hr]
    refine ⟨rfl, ?_, rfl, ?_⟩
    · intro a ha
      simp only [copy_from_user]
      rw [if_neg]
      omega
    · intro i hi
      have hb : umem (buf + i) = some B[i] := by
        rw [hsrc i hi, List.getElem?_eq_getElem hi]
      simp only [copy_to_user, copy_from_user, hspan_dst, hspan_src]
      rw [if_pos (by omega)]
      have e1 : (rbuf + i - rbuf : Nat) = i := by omega
      rw [e1]
      rw [if_pos (by omega), if_pos (by omega)]
      have e2 : ((filp.private_data.vaddr : Int) + offset + (i : Int)
          - ((filp.private_data.vaddr : Int) + offset)).toNat = i := by omega
      rw [e2, hb, List.getElem?_eq_getElem hi]
      rfl
  · -- the cursor is at the end of the window, so `B` is empty
    have hlen : B.length = 0 := by omega
    have hge : (filp.private_data.size : Int) ≤ ((offset : Nat) : Int) := by omega
    rw [sel4_virtio_write_past_end filp kmem umem buf B.length offset hge,
      sel4_virtio_read_past_end filp kmem umem rbuf B.length offset hge]
    refine ⟨by simp [hlen], fun _ _ => rfl, by simp [hlen], ?_⟩
    intro i hi
    omega

/-- Witness for C3: sixteen bytes `0xAA` written at cursor 4080 of the 4096-byte
window (the boundary case) and read back. -/
theorem write_then_read_round_trip_witness :
    (sel4_virtio_write ⟨win4096⟩ kmem_addr umem_rt 1000 16 4080).ret = 16 ∧
    (sel4_virtio_write ⟨win4096⟩ kmem_addr umem_rt 1000 16 4080).kmem (0x10000 + 4079)
      = kmem_addr (0x10000 + 4079) ∧
    (sel4_virtio_read ⟨win4096⟩
        (sel4_virtio_write ⟨win4096⟩ kmem_addr umem_rt 1000 16 4080).kmem
        (sel4_virtio_write ⟨win4096⟩ kmem_addr umem_rt 1000 16 4080).umem
        2000 16 4080).ret = 16 ∧
    (sel4_virtio_read ⟨win4096⟩
        (sel4_virtio_write ⟨win4096⟩ kmem_addr umem_rt 1000 16 4080).kmem
        (sel4_virtio_write ⟨win4096⟩ kmem_addr umem_rt 1000 16 4080).umem
        2000 16 4080).umem (2000 + 15) = some 170 :=
  (fun h => ⟨h.1, h.2.1 (0x10000 + 4079) (by decide), h.2.2.1, h.2.2.2 15 (by decide)⟩)
    (write_then_read_round_trip ⟨win4096⟩ kmem_addr umem_rt 1000 2000 4080 pattern16
      (by decide) (by decide) (by decide) (by decide))

/-- A direct call with a count that the VFS never passes: in an 8-byte window with the
cursor at 1 and a user buffer of the 7 bytes left, a count of `2^64 - 1` makes
`*f_pos + count` wrap to 0, so the clamp is not applied and both calls return
`-EFAULT` with the cursor unchanged; a count of 100 with the same buffer is clamped
to 7. -/
theorem wrapped_sum_skips_clamp :
    clamp_ge win8.size 1 18446744073709551615 = 18446744073709551615 ∧
    (sel4_virtio_read ⟨win8⟩ kmem_addr (ubuf 1000 7 0) 1000 18446744073709551615 1).ret
      = -EFAULT ∧
    (sel4_virtio_read ⟨win8⟩ kmem_addr (ubuf 1000 7 0) 1000 18446744073709551615 1).f_pos = 1 ∧
    (sel4_virtio_write ⟨win8⟩ kmem_addr (ubuf 1000 7 0) 1000 18446744073709551615 1).ret
      = -EFAULT ∧
    (sel4_virtio_write ⟨win8⟩ kmem_addr (ubuf 1000 7 0) 1000 18446744073709551615 1).f_pos = 1 ∧
    (sel4_virtio_read ⟨win8⟩ kmem_addr (ubuf 1000 7 0) 1000 100 1).ret = 7 ∧
    (sel4_virtio_write ⟨win8⟩ kmem_addr (ubuf 1000 7 0) 1000 100 1).ret = 7 := by
  decide

/-- C4: `sel4_virtio_mmap` returns `-EINVAL` and makes no remap request when the
requested length `vm_end - vm_start` exceeds the window size; otherwise (equality
included) it makes exactly one remap request, at `vm_start`, from page frame
`paddr >> PAGE_SHIFT`, of exactly the requested length, with the write-combining
variant of the vma's protection, and returns the result of that request. -/
theorem mmap_rejects_only_oversize (PAGE_SHIFT : Nat) (remap_pfn_range : RemapRequest → Int)
    (filep : file) (vma : vm_area_struct) :
    (vma_length vma > filep.private_data.size →
      sel4_virtio_mmap PAGE_SHIFT remap_pfn_range filep vma
        = { ret := -EINVAL, vma := vma, request := none }) ∧
    (vma_length vma ≤ filep.private_data.size →
      sel4_virtio_mmap PAGE_SHIFT remap_pfn_range filep vma
        = { ret := remap_pfn_range
                    { addr := vma.vm_start, pfn := filep.private_data.paddr >>> PAGE_SHIFT,
                      size := vma_length vma,
                      prot := pgprot_writecombine vma.vm_page_prot },
            vma := { vma with vm_page_prot := pgprot_writecombine vma.vm_page_prot },
            request := some
                    { addr := vma.vm_start, pfn := filep.private_data.paddr >>> PAGE_SHIFT,
                      size := vma_length vma,
                      prot := pgprot_writecombine vma.vm_page_prot } } ∧
      (pgprot_writecombine vma.vm_page_prot).writecombine = true ∧
      (pgprot_writecombine vma.vm_page_prot).access = vma.vm_page_prot.access) := by
  constructor
  · intro h
    simp only [sel4_virtio_mmap, h, if_true]
  · intro h
    have h' : ¬ (vma_length vma > filep.private_data.size) := Nat.not_lt.mpr h
    refine ⟨?_, rfl, rfl⟩
    simp only [sel4_virtio_mmap, h', if_false]
    rfl

/-- Witness for C4: the scenario's window of 4096 bytes; a mapping of 5000 bytes is
refused, a mapping of 4096 bytes is requested from page frame 0x80000. -/
theorem mmap_rejects_only_oversize_witness :
    sel4_virtio_mmap 12 (fun _ => 0) ⟨win4096⟩ (vma_of_length 5000 0)
      = { ret := -EINVAL, vma := vma_of_length 5000 0, request := none } ∧
    (sel4_virtio_mmap 12 (fun _ => 0) ⟨win4096⟩ (vma_of_length 4096 0)).request
      = some { addr := 0x7f0000000000, pfn := 0x80000, size := 4096,
               prot := { access := 3, writecombine := true } } :=
  ⟨(mmap_rejects_only_oversize 12 (fun _ => 0) ⟨win4096⟩ (vma_of_length 5000 0)).1 (by decide),
   congrArg MmapResult.request
     ((mmap_rejects_only_oversize 12 (fun _ => 0) ⟨win4096⟩ (vma_of_length 4096 0)).2
        (by decide)).1⟩

/-- C10: when the window base `paddr` is page aligned and the requested length is
accepted (`length <= size`), the physical range handed to `remap_pfn_range` starts at
`paddr` and lies inside `[paddr, paddr + size)`; the request does not depend on the
page offset `vm_pgoff` asked for by the consumer. -/
theorem mmap_request_inside_window (PAGE_SHIFT : Nat) (remap_pfn_range : RemapRequest → Int)
    (filep : file) (vma : vm_area_struct)
    (halign : 2 ^ PAGE_SHIFT ∣ filep.private_data.paddr)
    (hlen : vma_length vma ≤ filep.private_data.size) :
    ∃ req : RemapRequest,
      (sel4_virtio_mmap PAGE_SHIFT remap_pfn_range filep vma).request = some req ∧
      req.pfn * 2 ^ PAGE_SHIFT = filep.private_data.paddr ∧
      req.pfn * 2 ^ PAGE_SHIFT + req.size
        ≤ filep.private_data.paddr + filep.private_data.size ∧
      ∀ pgoff : Nat,
        (sel4_virtio_mmap PAGE_SHIFT remap_pfn_range filep
          { vma with vm_pgoff := pgoff }).request = some req := by
  have h' : ¬ (vma_length vma > filep.private_data.size) := Nat.not_lt.mpr hlen
  have hpfn : (filep.private_data.paddr >>> PAGE_SHIFT) * 2 ^ PAGE_SHIFT
      = filep.private_data.paddr := by
    rw [Nat.shiftRight_eq_div_pow]
    exact Nat.div_mul_cancel halign
  refine ⟨{ addr := vma.vm_start, pfn := filep.private_data.paddr >>> PAGE_SHIFT,
            size := vma_length vma, prot := pgprot_writecombine vma.vm_page_prot }, ?_, ?_, ?_, ?_⟩
  · simp only [sel4_virtio_mmap, h', if_false]
    rfl
  · exact hpfn
  · simp only [hpfn]
    omega
  · intro pgoff
    have hl : vma_length { vma with vm_pgoff := pgoff } = vma_length vma := rfl
    simp only [sel4_virtio_mmap, hl, h', if_false]
    rfl

/-- Witness for C10: the scenario's window (base 0x80000000, 4096 bytes, 4 KiB pages)
and a full-length mapping requested with page offset 7. -/
theorem mmap_request_inside_window_witness :
    ∃ req : RemapRequest,
      (sel4_virtio_mmap 12 (fun _ => 0) ⟨win4096⟩ (vma_of_length 4096 7)).request = some req ∧
      req.pfn * 2 ^ 12 = win4096.paddr ∧
      req.pfn * 2 ^ 12 + req.size ≤ win4096.paddr + win4096.size ∧
      ∀ pgoff : Nat,
        (sel4_virtio_mmap 12 (fun _ => 0) ⟨win4096⟩
          { vma_of_length 4096 7 with vm_pgoff := pgoff }).request = some req :=
  mmap_request_inside_window 12 (fun _ => 0) ⟨win4096⟩ (vma_of_length 4096 7)
    (by decide) (by decide)

/-- C8: descriptor resolution in `sel4_virtio_probe` (object allocated, collaborator
answers as inputs). A failing "client-id" read is reported first, with its own error
code; otherwise a missing memory-region reference gives `-EINVAL`; otherwise a failing
address translation is reported with its own error code. In each of these cases no
mapping is requested, no character device is added, and the object is left unmapped
and unregistered. When all three succeed the descriptor is the client id read, the
resource start as base address, and `end - start + 1` reduced to 32 bits as size, and
the mapping is requested for exactly that base and size. -/
theorem probe_resolves_descriptor (env : ProbeEnv) (hk : env.kzalloc_ok = true) :
    (env.of_property_read_u32.1 ≠ 0 →
      sel4_virtio_probe env
        = { ret := env.of_property_read_u32.1, dev := some zeroed_device,
            memremap_request := none, cdev_request := none }) ∧
    (env.of_property_read_u32.1 = 0 → env.of_parse_phandle = false →
      sel4_virtio_probe env
        = { ret := -EINVAL, dev := some zeroed_device,
            memremap_request := none, cdev_request := none }) ∧
    (env.of_property_read_u32.1 = 0 → env.of_parse_phandle = true →
      env.of_address_to_resource.1 ≠ 0 →
      sel4_virtio_probe env
        = { ret := env.of_address_to_resource.1, dev := some zeroed_device,
            memremap_request := none, cdev_request := none }) ∧
    (env.of_property_read_u32.1 = 0 → env.of_parse_phandle = true →
      env.of_address_to_resource.1 = 0 →
      ∃ d : Device, (sel4_virtio_probe env).dev = some d ∧
        d.be.client_id = env.of_property_read_u32.2 ∧
        d.be.paddr = env.of_address_to_resource.2.start ∧
        (d.be.size : Int) = ((env.of_address_to_resource.2.end_ : Int)
                              - (env.of_address_to_resource.2.start : Int) + 1) % 2 ^ 32 ∧
        (sel4_virtio_probe env).memremap_request = some (d.be.paddr, d.be.size)) := by
  have hsize : ((to_u32 (resource_size env.of_address_to_resource.2) : Nat) : Int)
      = ((env.of_address_to_resource.2.end_ : Int)
          - (env.of_address_to_resource.2.start : Int) + 1) % 2 ^ 32 := by
    unfold to_u32 resource_size to_u64
    omega
  refine ⟨?_, ?_, ?_, ?_⟩
  · intro h1
    simp [sel4_virtio_probe, hk, h1]
  · intro h1 h2
    simp [sel4_virtio_probe, hk, h1, h2]
  · intro h1 h2 h3
    simp [sel4_virtio_probe, hk, h1, h2, h3]
  · intro h1 h2 h3
    simp only [sel4_virtio_probe, hk, h1, h2, h3]
    cases hm : env.devm_memremap env.of_address_to_resource.2.start
        (to_u32 (resource_size env.of_address_to_resource.2)) with
    | err e =>
      simp [zeroed_device, hm, hsize]
    | ptr v =>
      by_cases hc : env.cdev_device_add
          (MKDEV (MAJOR env.sel4_virtio_major) env.of_property_read_u32.2) = 0
      · simp [zeroed_device, hm, hc, hsize]
      · simp [zeroed_device, hm, hc, hsize, put_device, sel4_virtio_release_device]

/-- Witness for C8: the three failure cases and the success case on the scenario's
memory region (0x80000000 .. 0x80000fff, client id 3). -/
theorem probe_resolves_descriptor_witness :
    sel4_virtio_probe (probe_env (-22) 0 true 0 0)
      = { ret := -22, dev := some zeroed_device,
          memremap_request := none, cdev_request := none } ∧
    sel4_virtio_probe (probe_env 0 3 false 0 0)
      = { ret := -EINVAL, dev := some zeroed_device,
          memremap_request := none, cdev_request := none } ∧
    sel4_virtio_probe (probe_env 0 3 true (-6) 0)
      = { ret := -6, dev := some zeroed_device,
          memremap_request := none, cdev_request := none } ∧
    (∃ d : Device, (sel4_virtio_probe (probe_env 0 3 true 0 0)).dev = some d ∧
        d.be.client_id = 3 ∧ d.be.paddr = 0x80000000 ∧
        (d.be.size : Int) = ((0x80000fff : Nat) - (0x80000000 : Nat) + 1) % 2 ^ 32 ∧
        (sel4_virtio_probe (probe_env 0 3 true 0 0)).memremap_request
          = some (d.be.paddr, d.be.size)) :=
  ⟨(probe_resolves_descriptor (probe_env (-22) 0 true 0 0) rfl).1 (by decide),
   (probe_resolves_descriptor (probe_env 0 3 false 0 0) rfl).2.1 rfl rfl,
   (probe_resolves_descriptor (probe_env 0 3 true (-6) 0) rfl).2.2.1 rfl rfl (by decide),
   (probe_resolves_descriptor (probe_env 0 3 true 0 0) rfl).2.2.2 rfl rfl rfl⟩

/-- In-range device numbers: for a major below 2^12 and a minor within `MINORMASK`,
`MKDEV` loses nothing. -/
theorem MKDEV_in_range (ma mi : Nat) (hma : ma < 2 ^ 12) (hmi : mi ≤ MINORMASK) :
    MINOR (MKDEV ma mi) = mi ∧ MAJOR (MKDEV ma mi) = ma := by
  have hmi' : mi < 2 ^ 20 := by
    have : MINORMASK = 2 ^ 20 - 1 := rfl
    omega
  have hmk : MKDEV ma mi = 2 ^ 20 * ma + mi := by
    unfold MKDEV to_u32 MINORBITS
    rw [Nat.shiftLeft_eq, Nat.mod_eq_of_lt (by omega), Nat.mul_comm ma (2 ^ 20)]
    exact (Nat.mul_add_lt_is_or hmi' ma).symm
  rw [hmk]
  constructor
  · unfold MINOR MINORMASK MINORBITS
    rw [Nat.and_pow_two_sub_one_eq_mod]
    omega
  · unfold MAJOR MINORBITS
    rw [Nat.shiftRight_eq_div_pow]
    omega

/-- The major of a 32-bit device number is below 2^12. -/
theorem MAJOR_lt (dev : Nat) (h : dev < 2 ^ 32) : MAJOR dev < 2 ^ 12 := by
  unfold MAJOR MINORBITS
  rw [Nat.shiftRight_eq_div_pow]
  omega

/-- C7 (counterexample): with client id 2^20, one above the largest minor, and every
collaborator answering success, `sel4_virtio_probe` returns 0 and registers the
endpoint; the device number it builds has minor 0 and major 241 instead of the
allocated major 240. -/
theorem probe_accepts_client_id_beyond_minors :
    (2 ^ 20 - 1 < (probe_env 0 (2 ^ 20) true 0 0).of_property_read_u32.2) ∧
    (sel4_virtio_probe (probe_env 0 (2 ^ 20) true 0 0)).ret = 0 ∧
    ((sel4_virtio_probe (probe_env 0 (2 ^ 20) true 0 0)).dev.map Device.registered
      = some true) ∧
    ((sel4_virtio_probe (probe_env 0 (2 ^ 20) true 0 0)).cdev_request.map MINOR = some 0) ∧
    ((sel4_virtio_probe (probe_env 0 (2 ^ 20) true 0 0)).cdev_request.map MAJOR = some 241) ∧
    MAJOR (probe_env 0 (2 ^ 20) true 0 0).sel4_virtio_major = 240 := by
  decide

/-- C7 (amended): once resolution and mapping have succeeded, `sel4_virtio_probe`
applies no range check to the client id: it hands `MKDEV(MAJOR(sel4_virtio_major),
client_id)` to `cdev_device_add`, returns that call's result, and the endpoint is
registered exactly when the result is 0. For a client id in `0 .. 2^20 - 1`
(below `SEL4_VIRTIO_DEV_MAX`) the device number has minor `client_id` and the
allocated major. -/
theorem probe_device_number (env : ProbeEnv) (vaddr : Nat)
    (hk : env.kzalloc_ok = true)
    (h1 : env.of_property_read_u32.1 = 0) (h2 : env.of_parse_phandle = true)
    (h3 : env.of_address_to_resource.1 = 0)
    (hm : env.devm_memremap env.of_address_to_resource.2.start
            (to_u32 (resource_size env.of_address_to_resource.2)) = .ptr vaddr)
    (hmaj : env.sel4_virtio_major < 2 ^ 32) :
    (sel4_virtio_probe env).cdev_request
      = some (MKDEV (MAJOR env.sel4_virtio_major) env.of_property_read_u32.2) ∧
    (sel4_virtio_probe env).ret
      = env.cdev_device_add (MKDEV (MAJOR env.sel4_virtio_major) env.of_property_read_u32.2) ∧
    ((sel4_virtio_probe env).ret = 0 ↔
      (sel4_virtio_probe env).dev.map Device.registered = some true) ∧
    (env.of_property_read_u32.2 < SEL4_VIRTIO_DEV_MAX →
      MINOR (MKDEV (MAJOR env.sel4_virtio_major) env.of_property_read_u32.2)
        = env.of_property_read_u32.2 ∧
      MAJOR (MKDEV (MAJOR env.sel4_virtio_major) env.of_property_read_u32.2)
        = MAJOR env.sel4_virtio_major) := by
  have hinr : env.of_property_read_u32.2 < SEL4_VIRTIO_DEV_MAX →
      MINOR (MKDEV (MAJOR env.sel4_virtio_major) env.of_property_read_u32.2)
        = env.of_property_read_u32.2 ∧
      MAJOR (MKDEV (MAJOR env.sel4_virtio_major) env.of_property_read_u32.2)
        = MAJOR env.sel4_virtio_major := by
    intro h
    apply MKDEV_in_range _ _ (MAJOR_lt _ hmaj)
    have : SEL4_VIRTIO_DEV_MAX = MINORMASK + 1 := rfl
    omega
  by_cases hc : env.cdev_device_add
      (MKDEV (MAJOR env.sel4_virtio_major) env.of_property_read_u32.2) = 0
  · refine ⟨?_, ?_, ?_, hinr⟩ <;>
      simp [sel4_virtio_probe, hk, h1, h2, h3, zeroed_device, hm, hc]
  · refine ⟨?_, ?_, ?_, hinr⟩ <;>
      simp [sel4_virtio_probe, hk, h1, h2, h3, zeroed_device, hm, hc, put_device,
        sel4_virtio_release_device]

/-- Witness for C7 (amended): the scenario's client id 3 under major 240. -/
theorem probe_device_number_witness :
    (sel4_virtio_probe (probe_env 0 3 true 0 0)).cdev_request = some (MKDEV 240 3) ∧
    (sel4_virtio_probe (probe_env 0 3 true 0 0)).ret = 0 ∧
    MINOR (MKDEV 240 3) = 3 ∧ MAJOR (MKDEV 240 3) = 240 :=
  (fun h => ⟨h.1, h.2.1, (h.2.2.2 (by decide)).1, (h.2.2.2 (by decide)).2⟩)
    (probe_device_number (probe_env 0 3 true 0 0) 0x10000 rfl rfl rfl rfl rfl (by decide))

/-- A `read` started at a non-negative cursor leaves the cursor non-negative and at
most `max(cursor, size)`; a non-negative return value is exactly the distance the
cursor moved. -/
theorem sel4_virtio_read_cursor (filp : file) (kmem : KMem) (umem : UMem)
    (buf count : Nat) (f_pos : Int) (hsz : filp.private_data.size < 2 ^ 32)
    (h0 : 0 ≤ f_pos) :
    0 ≤ (sel4_virtio_read filp kmem umem buf count f_pos).f_pos ∧
    (sel4_virtio_read filp kmem umem buf count f_pos).f_pos
      ≤ max f_pos (filp.private_data.size : Int) ∧
    (0 ≤ (sel4_virtio_read filp kmem umem buf count f_pos).ret →
      (sel4_virtio_read filp kmem umem buf count f_pos).f_pos
        = f_pos + (sel4_virtio_read filp kmem umem buf count f_pos).ret) := by
  by_cases hlt : f_pos < filp.private_data.size
  · rw [sel4_virtio_read_eq _ _ _ _ _ _ hlt]
    simp only [clamp_ge, to_u64, to_s64, EFAULT]
    split <;> split <;> simp only <;> omega
  · rw [sel4_virtio_read_past_end _ _ _ _ _ _ (by omega)]
    simp only
    omega

/-- A `write` started at a non-negative cursor leaves the cursor non-negative and at
most `max(cursor, size)`; a non-negative return value is exactly the distance the
cursor moved. -/
theorem sel4_virtio_write_cursor (filp : file) (kmem : KMem) (umem : UMem)
    (buf count : Nat) (f_pos : Int) (hsz : filp.private_data.size < 2 ^ 32)
    (h0 : 0 ≤ f_pos) :
    0 ≤ (sel4_virtio_write filp kmem umem buf count f_pos).f_pos ∧
    (sel4_virtio_write filp kmem umem buf count f_pos).f_pos
      ≤ max f_pos (filp.private_data.size : Int) ∧
    (0 ≤ (sel4_virtio_write filp kmem umem buf count f_pos).ret →
      (sel4_virtio_write filp kmem umem buf count f_pos).f_pos
        = f_pos + (sel4_virtio_write filp kmem umem buf count f_pos).ret) := by
  by_cases hlt : f_pos < filp.private_data.size
  · rw [sel4_virtio_write_eq _ _ _ _ _ _ hlt]
    simp only [clamp_ge, to_u64, to_s64, EFAULT]
    split <;> split <;> simp only <;> omega
  · rw [sel4_virtio_write_past_end _ _ _ _ _ _ (by omega)]
    simp only
    omega

/-- One operation keeps the session on the same file and, when a seek asks for at
most `bound`, the cursor in `[0, bound]`, for any `bound` of at least the window
size. -/
theorem session_step_cursor (s : Session) (op : FileOp) (bound : Int)
    (hsz : s.filp.private_data.size < 2 ^ 32)
    (hb : (s.filp.private_data.size : Int) ≤ bound)
    (h0 : 0 ≤ s.f_pos) (h1 : s.f_pos ≤ bound)
    (hop : FileOp.seeks_within bound op = true) :
    (session_step s op).filp = s.filp ∧ 0 ≤ (session_step s op).f_pos ∧
    (session_step s op).f_pos ≤ bound := by
  cases op with
  | read buf count =>
    have h := sel4_virtio_read_cursor s.filp s.kmem s.umem buf count s.f_pos hsz h0
    refine ⟨rfl, h.1, ?_⟩
    have h2 := h.2.1
    simp only [session_step]
    omega
  | write buf count =>
    have h := sel4_virtio_write_cursor s.filp s.kmem s.umem buf count s.f_pos hsz h0
    refine ⟨rfl, h.1, ?_⟩
    have h2 := h.2.1
    simp only [session_step]
    omega
  | llseek pos =>
    have hp : pos ≤ bound := by simpa [FileOp.seeks_within] using hop
    simp only [session_step, default_llseek]
    refine ⟨trivial, ?_, ?_⟩ <;> split <;> simp only <;> omega

/-- A sequence of operations whose seeks ask for at most `bound` keeps the session on
the same file and the cursor in `[0, bound]`, for any `bound` of at least the window
size. -/
theorem session_run_cursor (ops : List FileOp) (bound : Int) :
    ∀ s : Session, s.filp.private_data.size < 2 ^ 32 →
      (s.filp.private_data.size : Int) ≤ bound →
      0 ≤ s.f_pos → s.f_pos ≤ bound →
      (∀ op ∈ ops, FileOp.seeks_within bound op = true) →
      (session_run s ops).filp = s.filp ∧ 0 ≤ (session_run s ops).f_pos ∧
      (session_run s ops).f_pos ≤ bound := by
  induction ops with
  | nil =>
    intro s _ _ h0 h1 _
    exact ⟨rfl, h0, h1⟩
  | cons op ops ih =>
    intro s hsz hb h0 h1 hops
    have hstep := session_step_cursor s op bound hsz hb h0 h1
      (hops op (List.mem_cons_self op ops))
    have h := ih (session_step s op) (by rw [hstep.1]; exact hsz) (by rw [hstep.1]; exact hb)
      hstep.2.1 hstep.2.2 (fun o ho => hops o (List.mem_cons_of_mem op ho))
    rw [hstep.1] at h
    exact h

/-- C6 (counterexample): in a fresh session on the 4096-byte window a single `llseek`
to 5000, an operation of `sel4_virtio_fops` that is neither read nor write, changes
the cursor and leaves it beyond the window size. -/
theorem llseek_moves_cursor_past_window :
    (session_open ⟨win4096⟩ kmem_addr umem_rt).f_pos = 0 ∧
    (session_run (session_open ⟨win4096⟩ kmem_addr umem_rt) [FileOp.llseek 5000]).f_pos = 5000 ∧
    (win4096.size : Int) < 5000 := by
  decide

/-- C6 (amended): the cursor of a session starts at 0 and is changed by `read`, `write`
and `llseek`. After any sequence of operations the cursor is non-negative and at most
the larger of the window size and the seek targets used (so it stays in `[0, size]`
when the seeks stay in `[0, size]`). A read or write at any non-negative cursor leaves
the cursor non-negative and at most `max(cursor, size)`, and when it returns a
non-negative count it advances the cursor by exactly that count. At a cursor at or
beyond the size, reads and writes return 0 and change nothing. `llseek` sets the cursor
to any requested non-negative position, whatever the window size, and refuses a
negative one, leaving the cursor. -/
theorem cursor_bounded_by_size_and_seeks (filp : file) (kmem : KMem) (umem : UMem)
    (ops : List FileOp) (bound : Int) (hsz : filp.private_data.size < 2 ^ 32)
    (hb : (filp.private_data.size : Int) ≤ bound)
    (hops : ∀ op ∈ ops, FileOp.seeks_within bound op = true) :
    (session_open filp kmem umem).f_pos = 0 ∧
    0 ≤ (session_run (session_open filp kmem umem) ops).f_pos ∧
    (session_run (session_open filp kmem umem) ops).f_pos ≤ bound ∧
    (∀ (k : KMem) (u : UMem) (buf count : Nat) (f_pos : Int), 0 ≤ f_pos →
      (0 ≤ (sel4_virtio_read filp k u buf count f_pos).f_pos ∧
        (sel4_virtio_read filp k u buf count f_pos).f_pos
          ≤ max f_pos (filp.private_data.size : Int) ∧
        (0 ≤ (sel4_virtio_read filp k u buf count f_pos).ret →
          (sel4_virtio_read filp k u buf count f_pos).f_pos
            = f_pos + (sel4_virtio_read filp k u buf count f_pos).ret)) ∧
      (0 ≤ (sel4_virtio_write filp k u buf count f_pos).f_pos ∧
        (sel4_virtio_write filp k u buf count f_pos).f_pos
          ≤ max f_pos (filp.private_data.size : Int) ∧
        (0 ≤ (sel4_virtio_write filp k u buf count f_pos).ret →
          (sel4_virtio_write filp k u buf count f_pos).f_pos
            = f_pos + (sel4_virtio_write filp k u buf count f_pos).ret))) ∧
    (∀ (k : KMem) (u : UMem) (buf count : Nat) (f_pos : Int),
      (filp.private_data.size : Int) ≤ f_pos →
      sel4_virtio_read filp k u buf count f_pos
        = { ret := 0, f_pos := f_pos, kmem := k, umem := u } ∧
      sel4_virtio_write filp k u buf count f_pos
        = { ret := 0, f_pos := f_pos, kmem := k, umem := u }) ∧
    (∀ (s : Session) (pos : Int), 0 ≤ pos →
      (session_step s (FileOp.llseek pos)).f_pos = pos) ∧
    (∀ (s : Session) (pos : Int), pos < 0 →
      (session_step s (FileOp.llseek pos)).f_pos = s.f_pos) := by
  have hrun := session_run_cursor ops bound (session_open filp kmem umem) hsz hb
    (le_refl (0 : Int)) (le_trans (Int.ofNat_nonneg _) hb) hops
  refine ⟨rfl, hrun.2.1, hrun.2.2, ?_, ?_, ?_, ?_⟩
  · intro k u buf count f_pos h0
    exact ⟨sel4_virtio_read_cursor filp k u buf count f_pos hsz h0,
      sel4_virtio_write_cursor filp k u buf count f_pos hsz h0⟩
  · intro k u buf count f_pos h
    exact ⟨sel4_virtio_read_past_end filp k u buf count f_pos h,
      sel4_virtio_write_past_end filp k u buf count f_pos h⟩
  · intro s pos h
    have h' : pos ≥ 0 := h
    simp only [session_step, default_llseek, h', if_true]
  · intro s pos h
    have h' : ¬ (pos ≥ 0) := by omega
    simp only [session_step, default_llseek, h', if_false]

/-- Witness for C6 (amended): the spec's scenario on the 4096-byte window, a write of
16 bytes, a seek back to 0 and a read of 16 bytes, with the window size as bound. -/
theorem cursor_bounded_by_size_and_seeks_witness :
    (session_open ⟨win4096⟩ kmem_addr umem_rt).f_pos = 0 ∧
    0 ≤ (session_run (session_open ⟨win4096⟩ kmem_addr umem_rt)
          [FileOp.write 1000 16, FileOp.llseek 0, FileOp.read 2000 16]).f_pos ∧
    (session_run (session_open ⟨win4096⟩ kmem_addr umem_rt)
          [FileOp.write 1000 16, FileOp.llseek 0, FileOp.read 2000 16]).f_pos ≤ 4096 :=
  (fun h => ⟨h.1, h.2.1, h.2.2.1⟩)
    (cursor_bounded_by_size_and_seeks ⟨win4096⟩ kmem_addr umem_rt
      [FileOp.write 1000 16, FileOp.llseek 0, FileOp.read 2000 16] 4096
      (by decide) (by decide) (by decide))

/-- C5 (evaluation at the failing input): after a successful probe the window is
mapped with one reference. Opening a session and then removing the device leaves that
session open (one reference held, object not freed) while the mapping is already torn
down; the mapping is gone before the session is released. Removing the device with no
session open frees the object inside `put_device`, before `devm_memunmap` is
reached. -/
theorem remove_unmaps_under_open_session :
    (lifecycle_after_probe (probe_env 0 3 true 0 0)).dev.mapped = true ∧
    (lifecycle_after_probe (probe_env 0 3 true 0 0)).dev.kref = 1 ∧
    (lifecycle_run (lifecycle_after_probe (probe_env 0 3 true 0 0))
      [LifecycleOp.do_open, LifecycleOp.do_remove]).open_sessions = 1 ∧
    (lifecycle_run (lifecycle_after_probe (probe_env 0 3 true 0 0))
      [LifecycleOp.do_open, LifecycleOp.do_remove]).dev.kref = 1 ∧
    (lifecycle_run (lifecycle_after_probe (probe_env 0 3 true 0 0))
      [LifecycleOp.do_open, LifecycleOp.do_remove]).dev.freed = false ∧
    (lifecycle_run (lifecycle_after_probe (probe_env 0 3 true 0 0))
      [LifecycleOp.do_open, LifecycleOp.do_remove]).dev.mapped = false ∧
    (put_device (cdev_device_del (lifecycle_after_probe (probe_env 0 3 true 0 0)).dev)).freed
      = true := by
  decide

end Sel4Virtio
